import Mathlib

/-!
Verification of the knowledge-base vector store and the text-to-SQL
orchestration pipeline of the `prompt-to-sql` repository.

The development shallowly embeds the Python sources:
  app/services/schema_store.py  (class PersistentEnhancedSchemaVectorStore)
  app/services/text_to_sql.py   (class TextToSQLService)

Modelling conventions:
* Python strings are Lean `String`s; all indices/slices are counted in
  characters, matching Python semantics (`String.take`/`String.drop` are
  character based).
* The external embedding model (`SentenceTransformer.encode`) is an opaque
  parameter `encode : String → List ℚ`; FAISS float distances are modelled
  with exact rationals.
* The FAISS `IndexFlatL2` is modelled as the list of its rows; its `search`
  returns the row indices sorted by ascending squared L2 distance (stable,
  ties broken by insertion order) padded with `-1` entries when `k` exceeds
  the number of rows, exactly as FAISS does.
* `datetime.utcnow()` / `datetime.now()` values are ambient inputs and are
  passed in as parameters.
* The on-disk artifacts are modelled by a `Disk` record; a file is either
  absent (`none`), unreadable (`some (.error ())`, i.e. reading raises), or
  readable with parsed content (`some (.ok _)`).
* Python `dict`s keyed by strings are association lists with
  insert-or-update semantics (`dictInsert`); iteration order (insertion
  order) is preserved.
* Python `set` iteration order (used only inside one enriched-text join) is
  modelled as first-occurrence order; no claim inspects that string.
-/

set_option maxRecDepth 100000

namespace PromptToSql

/-! ## Python string primitives

Lean core's `String.splitOn`, `String.trim`, `String.toLower`, … are
defined by well-founded recursion over byte positions and do not reduce
inside the kernel, so the embedding re-implements every Python string
operation it needs by structural recursion over the character list.  All
indices and lengths are counted in characters, matching Python. -/

/-- `headMatches pat l` : does `pat` occur as a prefix of `l`? -/
def headMatches : List Char → List Char → Bool
  | [], _ => true
  | _ :: _, [] => false
  | a :: as, b :: bs => a = b && headMatches as bs

/-- Index (in characters) of the first occurrence of `pat` in the text,
starting at offset `i`; `none` when absent.  Mirrors Python `str.find`. -/
def findSubAux (pat : List Char) : List Char → Nat → Option Nat
  | [], i => if pat.isEmpty then some i else none
  | c :: cs, i =>
    if headMatches pat (c :: cs) then some i else findSubAux pat cs (i + 1)

/-- Python `s.find(sub)` : character index of first occurrence or `-1`. -/
def pyFind (s sub : String) : Int :=
  match findSubAux sub.toList s.toList 0 with
  | some n => (n : Int)
  | none => -1

/-- Python `sub in s` (substring containment). -/
def strContainsSub (s sub : String) : Bool :=
  (findSubAux sub.toList s.toList 0).isSome

/-- Python `str.isspace` characters (ASCII). -/
def pyIsSpace (c : Char) : Bool :=
  c = ' ' || c = '\t' || c = '\n' || c = '\r' || c = '\x0b' || c = '\x0c'

/-- Python `s.strip()`. -/
def pyTrim (s : String) : String :=
  String.mk ((((s.toList.dropWhile pyIsSpace).reverse).dropWhile pyIsSpace).reverse)

/-- Python `s.lower()` (ASCII). -/
def pyLower (s : String) : String := String.mk (s.toList.map Char.toLower)

/-- Python `s.upper()` (ASCII). -/
def pyUpper (s : String) : String := String.mk (s.toList.map Char.toUpper)

/-- Python `s.startswith(pat)`. -/
def pyStartsWith (s pat : String) : Bool := headMatches pat.toList s.toList

/-- Python `s.endswith(pat)`. -/
def pyEndsWith (s pat : String) : Bool :=
  headMatches pat.toList.reverse s.toList.reverse

/-- Python `s[n:]`. -/
def pyDrop (s : String) (n : Nat) : String := String.mk (s.toList.drop n)

/-- Python `s[:n]`. -/
def pyTake (s : String) (n : Nat) : String := String.mk (s.toList.take n)

/-- Python `s[:-n]`. -/
def pyDropRight (s : String) (n : Nat) : String :=
  String.mk (s.toList.take (s.toList.length - n))

/-- Python `c in s` for a single character. -/
def pyHasChar (s : String) (c : Char) : Bool := s.toList.elem c

/-- `sep.join(l)`. -/
def joinSep (sep : String) : List String → String
  | [] => ""
  | x :: xs => xs.foldl (fun a b => a ++ sep ++ b) x

/-- Splitting on a non-empty literal separator, keeping empties
(Python `s.split(sep)`). -/
def splitOnAuxCL (sep : List Char) : Nat → List Char → List Char →
    List (List Char)
  | 0, _, acc => [acc.reverse]
  | _ + 1, [], acc => [acc.reverse]
  | fuel + 1, c :: cs, acc =>
    if headMatches sep (c :: cs) then
      acc.reverse :: splitOnAuxCL sep fuel (cs.drop (sep.length - 1)) []
    else splitOnAuxCL sep fuel cs (c :: acc)

def pySplit (s sep : String) : List String :=
  (splitOnAuxCL sep.toList (s.toList.length + 1) s.toList []).map String.mk

/-- Split at every character satisfying `p`, keeping empties. -/
def splitPredAux (p : Char → Bool) : List Char → List Char → List (List Char)
  | [], acc => [acc.reverse]
  | c :: cs, acc =>
    if p c then acc.reverse :: splitPredAux p cs []
    else splitPredAux p cs (c :: acc)

/-- Python `s.split()` : split on whitespace runs, dropping empties. -/
def pyWords (s : String) : List String :=
  ((splitPredAux pyIsSpace s.toList []).map String.mk).filter (fun w => w ≠ "")

/-- Python `range(0, n, step)` for `step > 0`. -/
def pyRangeStep (n step : Nat) : List Nat :=
  (List.range ((n + step - 1) / step)).map (· * step)

/-! ## Document Chunker — `_split_business_logic_content`
(schema_store.py lines 222-259) -/

/-- Loop body of the sentence accumulation over a long paragraph
(schema_store.py lines 235-241).  State: (chunks so far, current_chunk). -/
def chunkSentenceStep (acc : List String × String) (sentence : String) :
    List String × String :=
  if (acc.2 ++ sentence).length < 800 then
    (acc.1, acc.2 ++ sentence ++ ". ")
  else if acc.2 ≠ "" then
    (acc.1 ++ [pyTrim acc.2], sentence ++ ". ")
  else
    (acc.1, sentence ++ ". ")

/-- Loop body over paragraphs (schema_store.py lines 227-246). -/
def chunkParaStep (chunks : List String) (paragraph : String) : List String :=
  if paragraph.length < 50 then chunks
  else if paragraph.length > 1000 then
    let sentences :=
      ((pySplit paragraph ".").map pyTrim).filter (fun s => s ≠ "")
    let r := sentences.foldl chunkSentenceStep (chunks, "")
    if r.2 ≠ "" then r.1 ++ [pyTrim r.2] else r.1
  else chunks ++ [paragraph]

/-- Loop body of the word-window fallback (schema_store.py lines 253-257). -/
def windowStep (words : List String) (chunks : List String) (i : Nat) :
    List String :=
  let chunk := joinSep " " ((words.drop i).take 500)
  if (pyTrim chunk).length > 50 then chunks ++ [pyTrim chunk] else chunks

/-- The paragraph list of line 225: split on blank lines, strip, drop
empties. -/
def paragraphsOf (content : String) : List String :=
  ((pySplit content "\n\n").map pyTrim).filter (fun p => p ≠ "")

/-- `_split_business_logic_content` (schema_store.py lines 222-259). -/
def splitBusinessLogicContent (content : String) : List String :=
  let chunks := (paragraphsOf content).foldl chunkParaStep []
  if chunks.isEmpty && pyTrim content ≠ "" then
    let words := pyWords content
    (pyRangeStep words.length 450).foldl (windowStep words) []
  else chunks

/-! ## Data model for the schema-metadata JSON documents -/

/-- One entry of a table's `columns` array.  `col.get('nullable', True)` and
`col.get('autoincrement')` become fields with the Python defaults. -/
structure ColumnInfo where
  name : String
  type : String
  nullable : Bool := true
  autoincrement : Bool := false
  deriving DecidableEq, Repr

/-- A `foreign_keys` entry: the code branches on `isinstance(fk, dict)`. -/
inductive FkEntry where
  | dict (column referenced_table referenced_column : String)
  | str (s : String)
  deriving DecidableEq, Repr

/-- A `relationships` entry: the code branches on `isinstance(rel, dict)`. -/
inductive RelEntry where
  | dict (table relationship_type : String)
  | str (s : String)
  deriving DecidableEq, Repr

/-- One `sample_data` row: a dict from column name to value; `none` models a
Python `None` value (other values are already rendered as strings). -/
abbrev SampleRow := List (String × Option String)

/-- The `schema` object of a table entry.  `table_name` is an `Option`
because `table_data["schema"]["table_name"]` raises `KeyError` when the key
is absent (the malformed-table case of the spec); `columns` is an `Option`
because the code tests `"columns" in schema_info`. -/
structure SchemaJson where
  table_name : Option String
  columns : Option (List ColumnInfo) := none
  primary_keys : List String := []
  foreign_keys : List FkEntry := []
  sample_data : List SampleRow := []
  deriving DecidableEq, Repr

/-- The `llm_analysis` object; every access in the code is via `.get`. -/
structure LlmAnalysis where
  purpose : Option String := none
  data_patterns : List String := []
  relationships : List RelEntry := []
  observations : List String := []
  deriving DecidableEq, Repr

/-- One entry of the `tables` array.  `schema` is an `Option` because
`table_data["schema"]` raises `KeyError` when absent. -/
structure TableData where
  schema : Option SchemaJson := none
  llm_analysis : LlmAnalysis := {}
  processed_at : Option String := none
  deriving DecidableEq, Repr

/-- The value stored in `self.table_metadata[table_name]`
(schema_store.py lines 314-318). -/
structure TableMeta where
  schema : SchemaJson
  llm_analysis : LlmAnalysis
  processed_at : Option String
  deriving DecidableEq, Repr

/-- Per-chunk metadata built in `process_business_logic_file`
(schema_store.py lines 179-185). -/
structure ChunkMeta where
  chunk_id : String
  source_file : String
  content_type : String
  chunk_index : Nat
  processed_at : String
  deriving DecidableEq, Repr

/-- The uploaded metadata JSON document: `has_metadata_key` models the
presence of the top-level `"metadata"` key, `tables = none` models a
missing `"tables"` key. -/
structure MetadataJson where
  has_metadata_key : Bool := true
  tables : Option (List TableData)
  deriving DecidableEq, Repr

/-! ## Python dict / truthiness helpers -/

/-- Python dicts keyed by strings, with insertion order preserved. -/
abbrev Dict (α : Type) := List (String × α)

/-- `d[k] = v` : update in place when the key exists, else append. -/
def dictInsert {α : Type} (d : Dict α) (k : String) (v : α) : Dict α :=
  if d.any (fun p => p.1 = k) then
    d.map (fun p => if p.1 = k then (k, v) else p)
  else d ++ [(k, v)]

/-- `d.get(k)` : `none` when the key is absent. -/
def dictGet {α : Type} (d : Dict α) (k : String) : Option α :=
  (d.find? (fun p => p.1 = k)).map Prod.snd

/-- Truthiness of a nullable Python string: `None` and `""` are falsy. -/
def pyTruthyStr : Option String → Bool
  | none => false
  | some s => s ≠ ""

/-- First-occurrence deduplication (models the `set(...)` used once inside
`_create_enriched_text`; the claims never inspect that join). -/
def dedupFirstAux (seen : List String) : List String → List String
  | [] => []
  | x :: xs =>
    if x ∈ seen then dedupFirstAux seen xs
    else x :: dedupFirstAux (x :: seen) xs

def dedupFirst (l : List String) : List String := dedupFirstAux [] l

/-! ## Store state and on-disk artifacts -/

/-- State of one persisted artifact file. -/
inductive FileState (α : Type) where
  | absent
  | unreadable
  | ok (a : α)
  deriving DecidableEq, Repr

/-- Is the file present (readable or not)?  Models `Path.exists()`. -/
def FileState.fsExists {α : Type} : FileState α → Bool
  | .absent => false
  | _ => true

/-- Parsed content of `metadata.json` (schema_store.py lines 62-66). -/
structure MetaFile where
  table_metadata : Dict TableMeta := []
  is_metadata_loaded : Bool := false
  metadata_upload_time : Option String := none
  deriving DecidableEq, Repr

/-- Parsed content of `business_logic.json` (lines 71-76). -/
structure BizFile where
  business_logic_texts : List String := []
  business_logic_metadata : List ChunkMeta := []
  is_business_logic_loaded : Bool := false
  business_logic_upload_time : Option String := none
  deriving DecidableEq, Repr

/-- Parsed content of `combined_texts.pkl` (lines 81-87). -/
structure CombinedFile where
  combined_texts : List String := []
  text_types : List String := []
  text_identifiers : List String := []
  schema_texts : List String := []
  table_names : List String := []
  deriving DecidableEq, Repr

/-- The store's durable artifacts on disk. -/
structure Disk where
  metadata_file : FileState MetaFile := .absent
  business_file : FileState BizFile := .absent
  combined_file : FileState CombinedFile := .absent
  index_file : FileState (List (List ℚ)) := .absent
  text_metadata_file : Bool := false
  deriving DecidableEq, Repr

/-- In-memory state of `PersistentEnhancedSchemaVectorStore`.  The FAISS
index is the list of its rows (each row an embedding vector). -/
structure StoreState where
  index : Option (List (List ℚ)) := none
  schema_texts : List String := []
  table_names : List String := []
  table_metadata : Dict TableMeta := []
  business_logic_texts : List String := []
  business_logic_metadata : List ChunkMeta := []
  combined_texts : List String := []
  text_types : List String := []
  text_identifiers : List String := []
  is_metadata_loaded : Bool := false
  is_business_logic_loaded : Bool := false
  metadata_upload_time : Option String := none
  business_logic_upload_time : Option String := none
  deriving DecidableEq, Repr

/-- `_reset_state` (schema_store.py lines 149-162): every field back to its
empty constructor value. -/
def resetState : StoreState := {}

/-- `_save_to_disk` (lines 60-98).  All writes happen inside one
`try/except` that logs and swallows any failure; `saveOk = false` models a
raise at the first write (nothing written).  The FAISS index is written
only when `self.index is not None`. -/
def saveToDisk (st : StoreState) (disk : Disk) (saveOk : Bool) : Disk :=
  if ¬ saveOk then disk
  else
    { disk with
      metadata_file :=
        .ok ⟨st.table_metadata, st.is_metadata_loaded, st.metadata_upload_time⟩,
      business_file :=
        .ok ⟨st.business_logic_texts, st.business_logic_metadata,
             st.is_business_logic_loaded, st.business_logic_upload_time⟩,
      combined_file :=
        .ok ⟨st.combined_texts, st.text_types, st.text_identifiers,
             st.schema_texts, st.table_names⟩,
      index_file :=
        match st.index with
        | some rows => .ok rows
        | none => disk.index_file }

/-- Body of `_load_from_disk` (lines 100-144): each artifact is read in
order when present; `none` signals the first raised exception. -/
def loadAux (disk : Disk) : Option StoreState := do
  let st : StoreState := {}
  let st ←
    match disk.metadata_file with
    | .unreadable => none
    | .absent => some st
    | .ok m =>
      some { st with table_metadata := m.table_metadata,
                     is_metadata_loaded := m.is_metadata_loaded,
                     metadata_upload_time := m.metadata_upload_time }
  let st ←
    match disk.business_file with
    | .unreadable => none
    | .absent => some st
    | .ok b =>
      some { st with business_logic_texts := b.business_logic_texts,
                     business_logic_metadata := b.business_logic_metadata,
                     is_business_logic_loaded := b.is_business_logic_loaded,
                     business_logic_upload_time := b.business_logic_upload_time }
  let st ←
    match disk.combined_file with
    | .unreadable => none
    | .absent => some st
    | .ok c =>
      some { st with combined_texts := c.combined_texts,
                     text_types := c.text_types,
                     text_identifiers := c.text_identifiers,
                     schema_texts := c.schema_texts,
                     table_names := c.table_names }
  let st ←
    match disk.index_file with
    | .unreadable => none
    | .absent => some st
    | .ok rows => some { st with index := some rows }
  pure st

/-- `_load_from_disk` (lines 100-147): on any exception the handler calls
`_reset_state`; otherwise the partially-filled state stands. -/
def loadFromDisk (disk : Disk) : StoreState :=
  match loadAux disk with
  | some st => st
  | none => resetState

/-- `clear_all` (lines 497-513): reset in-memory state, then remove every
artifact file. -/
def clearAll (st : StoreState) (disk : Disk) : StoreState × Disk :=
  let _ := st
  let _ := disk
  (resetState,
   { metadata_file := .absent, business_file := .absent,
     combined_file := .absent, index_file := .absent,
     text_metadata_file := false })

/-- `get_status` (lines 479-495), with the `files_exist` sub-dict
flattened. -/
structure Status where
  metadata_loaded : Bool
  business_logic_loaded : Bool
  upload_time : Option String
  business_logic_upload_time : Option String
  total_tables : Nat
  total_business_logic_chunks : Nat
  index_built : Bool
  files_exist_metadata : Bool
  files_exist_business_logic : Bool
  files_exist_vector_index : Bool
  files_exist_combined_texts : Bool
  deriving DecidableEq, Repr

def getStatus (st : StoreState) (disk : Disk) : Status :=
  { metadata_loaded := st.is_metadata_loaded
    business_logic_loaded := st.is_business_logic_loaded
    upload_time := st.metadata_upload_time
    business_logic_upload_time := st.business_logic_upload_time
    total_tables := st.table_names.length
    total_business_logic_chunks := st.business_logic_texts.length
    index_built := st.index.isSome
    files_exist_metadata := disk.metadata_file.fsExists
    files_exist_business_logic := disk.business_file.fsExists
    files_exist_vector_index := disk.index_file.fsExists
    files_exist_combined_texts := disk.combined_file.fsExists }

/-- `get_table_details` (lines 476-477). -/
def getTableDetails (st : StoreState) (table_name : String) : Option TableMeta :=
  dictGet st.table_metadata table_name

/-! ## Schema Enricher — `_create_enriched_text` (lines 355-409) -/

def renderColumn (col : ColumnInfo) : String :=
  let col_text := col.name ++ " (" ++ col.type
  let col_text := if ¬ col.nullable then col_text ++ ", NOT NULL" else col_text
  let col_text := if col.autoincrement then col_text ++ ", AUTO_INCREMENT" else col_text
  col_text ++ ")"

def renderFk : FkEntry → String
  | .dict c t rc => c ++ " -> " ++ t ++ "." ++ rc
  | .str s => s

def renderRel : RelEntry → String
  | .dict t rt => "Related to " ++ t ++ " via " ++ rt
  | .str s => s

def createEnrichedText (table_name : String) (schema_info : SchemaJson)
    (llm_analysis : LlmAnalysis) : String :=
  let text_parts := ["Table: " ++ table_name]
  let text_parts :=
    match schema_info.columns with
    | none => text_parts
    | some cols =>
      text_parts ++ ["Columns: " ++ joinSep ", " (cols.map renderColumn)]
  let text_parts :=
    if schema_info.primary_keys ≠ [] then
      text_parts ++ ["Primary Keys: " ++ joinSep ", " schema_info.primary_keys]
    else text_parts
  let text_parts :=
    if schema_info.foreign_keys ≠ [] then
      text_parts ++
        ["Foreign Keys: " ++ joinSep ", " (schema_info.foreign_keys.map renderFk)]
    else text_parts
  let text_parts :=
    if pyTruthyStr llm_analysis.purpose then
      text_parts ++ ["Purpose: " ++ llm_analysis.purpose.getD ""]
    else text_parts
  let text_parts :=
    if llm_analysis.data_patterns ≠ [] then
      text_parts ++ ["Data Patterns: " ++ joinSep "; " llm_analysis.data_patterns]
    else text_parts
  let text_parts :=
    if llm_analysis.relationships ≠ [] then
      text_parts ++
        ["Relationships: " ++ joinSep "; " (llm_analysis.relationships.map renderRel)]
    else text_parts
  let text_parts :=
    if llm_analysis.observations ≠ [] then
      text_parts ++ ["Observations: " ++ joinSep "; " llm_analysis.observations]
    else text_parts
  let text_parts :=
    if schema_info.sample_data ≠ [] then
      let sample_keys :=
        ((schema_info.sample_data.take 3).map (fun s => s.map Prod.fst)).flatten
      if sample_keys ≠ [] then
        text_parts ++ ["Sample Data Fields: " ++ joinSep ", " (dedupFirst sample_keys)]
      else text_parts
    else text_parts
  joinSep "\n" text_parts

/-! ## Index rebuild — `_rebuild_combined_index` (lines 261-290) -/

/-- The three parallel arrays are regenerated in lockstep (the two `zip`
loops of lines 268-277); the index is replaced only when the combined list
is non-empty — the early `return` of line 281 keeps any stale index. -/
def rebuildCombinedIndex (encode : String → List ℚ) (st : StoreState) :
    StoreState :=
  let schemaPart := st.table_names.zip st.schema_texts
  let bizPart := st.business_logic_texts.zip st.business_logic_metadata
  let combined :=
    schemaPart.map Prod.snd ++ bizPart.map (fun p => "Business Logic: " ++ p.1)
  let ttypes :=
    schemaPart.map (fun _ => "schema") ++ bizPart.map (fun _ => "business_logic")
  let idents :=
    schemaPart.map Prod.fst ++ bizPart.map (fun p => p.2.chunk_id)
  let st := { st with combined_texts := combined, text_types := ttypes,
                      text_identifiers := idents }
  if combined.isEmpty then st
  else { st with index := some (combined.map encode) }

/-! ## Ingest results -/

/-- The result dict returned by the two ingest operations; only the keys
present in the corresponding Python branch are `some`. -/
structure IngestResult where
  success : Bool
  processed_tables : Option Nat := none
  total_tables : Option Nat := none
  processed_chunks : Option Nat := none
  total_chunks : Option Nat := none
  upload_time : Option String := none
  error : Option String := none
  message : String := ""
  deriving DecidableEq, Repr

/-! ## `process_metadata` (lines 292-353) -/

/-- Per-item body of the table loop (lines 303-324): extraction of
`table_data["schema"]["table_name"]` raises `KeyError` (caught and skipped)
when either key is missing; the rest of the body is total. -/
def processTableItem (td : TableData) : Option (String × String × TableMeta) :=
  match td.schema with
  | none => none
  | some schema_info =>
    match schema_info.table_name with
    | none => none
    | some table_name =>
      some (table_name,
            createEnrichedText table_name schema_info td.llm_analysis,
            ⟨schema_info, td.llm_analysis, td.processed_at⟩)

/-- Accumulator of the table loop: survivors count, enriched texts, names,
and the live `self.table_metadata` dict (mutated per survivor). -/
structure MetaLoopAcc where
  processed_tables : Nat
  enriched_texts : List String
  names : List String
  table_metadata : Dict TableMeta
  deriving Repr

def metadataLoopStep (acc : MetaLoopAcc) (td : TableData) : MetaLoopAcc :=
  match processTableItem td with
  | none => acc
  | some (name, text, meta) =>
    { processed_tables := acc.processed_tables + 1,
      enriched_texts := acc.enriched_texts ++ [text],
      names := acc.names ++ [name],
      table_metadata := dictInsert acc.table_metadata name meta }

def processMetadata (encode : String → List ℚ) (now : String) (saveOk : Bool)
    (st : StoreState) (disk : Disk) (mj : MetadataJson) :
    StoreState × Disk × IngestResult :=
  if ¬ mj.has_metadata_key ∨ mj.tables.isNone then
    (st, disk,
     { success := false,
       error := some "Invalid metadata format. Expected \x27metadata\x27 and \x27tables\x27 keys.",
       message := "Failed to process metadata" })
  else
    let tables := mj.tables.getD []
    let acc := tables.foldl metadataLoopStep ⟨0, [], [], st.table_metadata⟩
    if acc.enriched_texts.isEmpty then
      (st, disk,
       { success := false,
         error := some "No valid table data found in metadata",
         message := "Failed to process metadata" })
    else
      let st := { st with table_metadata := acc.table_metadata,
                          schema_texts := acc.enriched_texts,
                          table_names := acc.names,
                          is_metadata_loaded := true,
                          metadata_upload_time := some now }
      let st := rebuildCombinedIndex encode st
      let disk := saveToDisk st disk saveOk
      (st, disk,
       { success := true,
         processed_tables := some acc.processed_tables,
         total_tables := some tables.length,
         upload_time := some now,
         message := "Metadata processed successfully. " ++
           toString acc.processed_tables ++ " tables indexed and saved to disk." })

/-! ## `process_business_logic_file` (lines 164-220) -/

def processBusinessLogicFile (encode : String → List ℚ) (now : String)
    (saveOk : Bool) (st : StoreState) (disk : Disk)
    (file_content file_name : String) : StoreState × Disk × IngestResult :=
  let chunks := splitBusinessLogicContent file_content
  if chunks.isEmpty then
    (st, disk,
     { success := false,
       error := some "No meaningful content found in business logic file",
       message := "Failed to process business logic file" })
  else
    -- the per-chunk try body (lines 178-189) is total, so every chunk
    -- survives and the second emptiness check (line 195) cannot fire
    let metas := chunks.enum.map (fun p =>
      ({ chunk_id := "business_logic_" ++ toString p.1,
         source_file := file_name,
         content_type := "business_logic",
         chunk_index := p.1,
         processed_at := now } : ChunkMeta))
    let st := { st with business_logic_texts := chunks,
                        business_logic_metadata := metas,
                        is_business_logic_loaded := true,
                        business_logic_upload_time := some now }
    let st := rebuildCombinedIndex encode st
    let disk := saveToDisk st disk saveOk
    (st, disk,
     { success := true,
       processed_chunks := some chunks.length,
       total_chunks := some chunks.length,
       upload_time := some now,
       message := "Business logic processed successfully. " ++
         toString chunks.length ++ " chunks indexed and saved to disk." })

/-! ## `build_from_database` (lines 411-435) -/

/-- The live database: table name paired with the `describe_table` result,
`none` when describing that table raises (skipped). -/
abbrev LiveDb := List (String × Option String)

def buildFromDatabase (encode : String → List ℚ) (db : LiveDb)
    (st : StoreState) : StoreState :=
  if st.is_metadata_loaded then st
  else
    let okTables := db.filter (fun p => p.2.isSome)
    let schemas := okTables.map (fun p => "Table " ++ p.1 ++ ": " ++ p.2.getD "")
    let st := { st with table_names := st.table_names ++ okTables.map Prod.fst }
    if schemas.isEmpty then st
    else { st with index := some (schemas.map encode), schema_texts := schemas }

/-! ## FAISS `IndexFlatL2.search` model and `search` (lines 437-474) -/

/-- Squared L2 distance (FAISS `IndexFlatL2` returns squared distances). -/
def sqDist (q v : List ℚ) : ℚ :=
  ((q.zip v).map (fun p => (p.1 - p.2) ^ 2)).sum

/-- Lexicographic (distance, row index) order used to rank rows; ties are
broken by insertion order, as in the flat FAISS index. -/
def idxLeB (d : Nat → ℚ) (i j : Nat) : Prop :=
  (d i < d j || (d i = d j && i ≤ j)) = true

instance (d : Nat → ℚ) : DecidableRel (idxLeB d) := fun _ _ =>
  inferInstanceAs (Decidable (_ = true))

/-- Distance of the query to row `i`. -/
def rowDist (rows : List (List ℚ)) (q : List ℚ) (i : Nat) : ℚ :=
  sqDist q (rows.getD i [])

/-- The argsort FAISS computes: all row indices ranked by `idxLeB`. -/
def faissRank (rows : List (List ℚ)) (q : List ℚ) : List Nat :=
  List.insertionSort (idxLeB (rowDist rows q)) (List.range rows.length)

/-- Row indices returned by FAISS for `index.search(q, k)`: all rows sorted
by ascending distance (ties by row order), truncated to `k` and padded with
`-1` when `k` exceeds the number of rows. -/
def faissSearchIdx (rows : List (List ℚ)) (q : List ℚ) (k : Nat) : List Int :=
  ((faissRank rows q).take k).map Int.ofNat ++
    List.replicate (k - rows.length) (-1)

/-- Python list indexing: negative indices count from the end; an index out
of range raises `IndexError` (`none`). -/
def pyGetIdx {α : Type} (l : List α) (i : Int) : Option α :=
  let j : Int := if i < 0 then (l.length : Int) + i else i
  if j < 0 then none else l.get? j.toNat

/-- The metadata component of a search result triple. -/
inductive SearchMeta where
  | tbl (m : Option TableMeta)
  | chunk (m : ChunkMeta)
  | chunkFallback (chunk_id : String)
  deriving DecidableEq, Repr

abbrev SearchResult := String × String × SearchMeta

/-- Loop body over the returned FAISS indices (lines 447-472).  The guard
of line 448 is a conditional expression: with a non-empty combined list it
is `idx < len(combined_texts)`; otherwise it is the *truthiness of*
`len(table_names)`.  An `IndexError` inside the body propagates
(`.error`). -/
def searchStep (st : StoreState) (acc : Except Unit (List SearchResult))
    (idx : Int) : Except Unit (List SearchResult) :=
  match acc with
  | .error e => .error e
  | .ok results =>
    let cond : Bool :=
      if ¬ st.combined_texts.isEmpty then idx < (st.combined_texts.length : Int)
      else st.table_names.length ≠ 0
    if ¬ cond then .ok results
    else if ¬ st.combined_texts.isEmpty then
      match pyGetIdx st.text_types idx, pyGetIdx st.text_identifiers idx,
            pyGetIdx st.combined_texts idx with
      | some text_type, some identifier, some content =>
        if text_type = "schema" then
          .ok (results ++ [(identifier, content, .tbl (dictGet st.table_metadata identifier))])
        else if text_type = "business_logic" then
          match st.business_logic_metadata.find? (fun m => m.chunk_id = identifier) with
          | some m => .ok (results ++ [(identifier, content, .chunk m)])
          | none => .ok (results ++ [(identifier, content, .chunkFallback identifier)])
        else .ok results
      | _, _, _ => .error ()
    else
      match pyGetIdx st.table_names idx, pyGetIdx st.schema_texts idx with
      | some table_name, some schema_text =>
        .ok (results ++ [(table_name, schema_text, .tbl (dictGet st.table_metadata table_name))])
      | _, _ => .error ()

/-- The result triple produced for a valid row index `i` (the body of
lines 449-467 restricted to in-range indices), `none` when the stored
content-type tag matches neither branch. -/
def resultAt (st : StoreState) (i : Nat) : Option SearchResult :=
  match st.text_types.get? i, st.text_identifiers.get? i,
        st.combined_texts.get? i with
  | some text_type, some identifier, some content =>
    if text_type = "schema" then
      some (identifier, content, .tbl (dictGet st.table_metadata identifier))
    else if text_type = "business_logic" then
      match st.business_logic_metadata.find? (fun m => m.chunk_id = identifier) with
      | some m => some (identifier, content, .chunk m)
      | none => some (identifier, content, .chunkFallback identifier)
    else none
  | _, _, _ => none

/-- `search` (lines 437-474).  Returns the possibly-mutated store (the
lazy `build_from_database` of lines 438-441) and the result list, or
`.error` when a list access raised. -/
def searchStore (encode : String → List ℚ) (db : LiveDb) (st : StoreState)
    (query : String) (k : Nat) :
    StoreState × Except Unit (List SearchResult) :=
  let st := if st.index.isNone then buildFromDatabase encode db st else st
  match st.index with
  | none => (st, .ok [])
  | some rows =>
    let indices := faissSearchIdx rows (encode query) k
    (st, indices.foldl (searchStep st) (.ok []))

/-- `rebuild_index` (lines 515-522); raises `ValueError` when nothing is
loaded. -/
def rebuildIndex (encode : String → List ℚ) (saveOk : Bool)
    (st : StoreState) (disk : Disk) : Except Unit (StoreState × Disk) :=
  if ¬ st.is_metadata_loaded ∧ ¬ st.is_business_logic_loaded then .error ()
  else
    let st := rebuildCombinedIndex encode st
    .ok (st, saveToDisk st disk saveOk)

/-! ## Regex primitives used by `_validate_sql_columns`
(text_to_sql.py lines 208-291)

The scanners below implement exactly the three `re` constructs the source
uses, on ASCII text: `(\w+)\.(\w+)` findall, `re.split` on
word-boundary-delimited keyword alternations (case-insensitive, separators
kept because of the capture group), `re.sub` removing such keywords, and
`\b([a-zA-Z_][a-zA-Z0-9_]*)\b` findall.  Each scanner carries a fuel
argument; callers pass `length + 1`, which is always sufficient since every
recursive call consumes at least one character. -/

def isWordChar (c : Char) : Bool := c.isAlphanum || c = '_'

/-- Maximal `\w+` run at the head: `(run, rest)`. -/
def takeWordRun : List Char → List Char × List Char
  | [] => ([], [])
  | c :: cs =>
    if isWordChar c then
      let r := takeWordRun cs
      (c :: r.1, r.2)
    else ([], c :: cs)

/-- Non-overlapping matches of `(\w+)\.(\w+)`, left to right.  When a word
run is not followed by `.` and a word character, no start inside that run
can match either (the run's end and following character are the same), so
scanning resumes after the run / after the dot. -/
def findDotPairsAux : Nat → List Char → List (String × String)
  | 0, _ => []
  | _ + 1, [] => []
  | fuel + 1, c :: cs =>
    if isWordChar c then
      let r1 := takeWordRun (c :: cs)
      match r1.2 with
      | '.' :: rest2 =>
        let r2 := takeWordRun rest2
        if r2.1.isEmpty then findDotPairsAux fuel rest2
        else (String.mk r1.1, String.mk r2.1) :: findDotPairsAux fuel r2.2
      | _ => findDotPairsAux fuel r1.2
    else findDotPairsAux fuel cs

def findDotPairs (s : String) : List (String × String) :=
  findDotPairsAux (s.length + 1) s.toList

/-- Case-insensitive literal match of `kw` at the head; returns the
matched original characters and the rest. -/
def matchKwCI : List Char → List Char → Option (List Char × List Char)
  | [], l => some ([], l)
  | _ :: _, [] => none
  | k :: ks, c :: cs =>
    if c.toLower = k.toLower then
      (matchKwCI ks cs).map (fun p => (c :: p.1, p.2))
    else none

/-- Try the keyword alternatives in order (regex alternation preference);
a match must end at a word boundary (all keywords end in a word char). -/
def tryKws (kws : List (List Char)) (l : List Char) :
    Option (List Char × List Char) :=
  match kws with
  | [] => none
  | kw :: rest =>
    match matchKwCI kw l with
    | some (m, after) =>
      if after.head?.elim true (fun c => ¬ isWordChar c) then some (m, after)
      else tryKws rest l
    | none => tryKws rest l

/-- `re.split(r'\b(KW1|KW2|...)\b', s, flags=IGNORECASE)`: segments and
matched separators, in order.  `prevW` tracks whether the previous
character is a word character (for the left `\b`); all keywords start with
a word character. -/
def splitKwAux (kws : List (List Char)) :
    Nat → List Char → Bool → List Char → List String
  | 0, _, _, acc => [String.mk acc.reverse]
  | _ + 1, [], _, acc => [String.mk acc.reverse]
  | fuel + 1, c :: cs, prevW, acc =>
    if ¬ prevW && isWordChar c then
      match tryKws kws (c :: cs) with
      | some (m, rest) =>
        String.mk acc.reverse :: String.mk m :: splitKwAux kws fuel rest true []
      | none => splitKwAux kws fuel cs (isWordChar c) (c :: acc)
    else splitKwAux kws fuel cs (isWordChar c) (c :: acc)

def splitKws (kws : List String) (s : String) : List String :=
  splitKwAux (kws.map String.toList) (s.length + 1) s.toList false []

/-- `re.sub(r'\b(KW1|...)\b', '', s, flags=IGNORECASE)`. -/
def subKwAux (kws : List (List Char)) :
    Nat → List Char → Bool → List Char
  | 0, _, _ => []
  | _ + 1, [], _ => []
  | fuel + 1, c :: cs, prevW =>
    if ¬ prevW && isWordChar c then
      match tryKws kws (c :: cs) with
      | some (_, rest) => subKwAux kws fuel rest true
      | none => c :: subKwAux kws fuel cs (isWordChar c)
    else c :: subKwAux kws fuel cs (isWordChar c)

def subKws (kws : List String) (s : String) : String :=
  String.mk (subKwAux (kws.map String.toList) (s.length + 1) s.toList false)

/-- `re.findall(r'\b([a-zA-Z_][a-zA-Z0-9_]*)\b', s)`: the maximal `\w+`
runs whose first character is a letter or underscore (runs starting with a
digit contain no internal word boundary, so they never match). -/
def wordRunsAux : Nat → List Char → List String
  | 0, _ => []
  | _ + 1, [] => []
  | fuel + 1, c :: cs =>
    if isWordChar c then
      let r := takeWordRun (c :: cs)
      String.mk r.1 :: wordRunsAux fuel r.2
    else wordRunsAux fuel cs

def wordTokens (s : String) : List String :=
  ((wordRunsAux (s.length + 1) s.toList).filter
    (fun w => w.toList.head?.elim false (fun c => c.isAlpha || c = '_')))

/-! ## `_validate_sql_columns` (text_to_sql.py lines 208-291) -/

def splitKwList : List String :=
  ["SELECT", "FROM", "WHERE", "JOIN", "ON", "ORDER BY", "GROUP BY", "HAVING"]

def subKwList : List String :=
  ["AND", "OR", "NOT", "IN", "IS", "NULL", "LIKE", "BETWEEN", "AS", "ASC",
   "DESC", "DISTINCT", "TOP", "COUNT", "SUM", "AVG", "MAX", "MIN"]

def sqlSkipWords : List String :=
  ["select", "from", "where", "join", "on", "order", "by", "group", "having",
   "and", "or", "not", "in", "is", "null", "like", "between", "as", "asc",
   "desc", "distinct", "top", "count", "sum", "avg", "max", "min"]

def commonMistakes : Dict String :=
  [("fk_proj_id", "Check available foreign key columns"),
   ("project_id", "Check available project reference columns"),
   ("fk_project_id", "Check available project foreign key columns"),
   ("user_id", "Check available user reference columns"),
   ("fk_user_id", "Check available user foreign key columns")]

/-- Columns tables extraction (lines 211-220): only results whose metadata
is a non-empty table entry contribute. -/
def extractTableColumns (search_results : List SearchResult) : Dict (List String) :=
  search_results.foldl (fun d r =>
    match r.2.2 with
    | .tbl (some m) =>
      dictInsert d (pyLower r.1) ((m.schema.columns.getD []).map (fun c => c.name))
    | _ => d) []

/-- Pattern-1 issue collection (lines 228-248). -/
def dotPairIssues (table_columns : Dict (List String)) (sql_lower : String) :
    List String :=
  (findDotPairs sql_lower).foldl (fun issues pr =>
    let table_ref := pr.1
    let column_ref := pr.2
    let matching_table := (table_columns.map Prod.fst).find? (fun table_name =>
      table_ref == pyLower table_name ||
      strContainsSub (pyLower table_name) table_ref ||
      pyStartsWith (pyLower table_name) table_ref ||
      (table_ref.length ≤ 3 && pyStartsWith (pyLower table_name) table_ref))
    match matching_table with
    | none => issues
    | some mt =>
      let available := (dictGet table_columns mt).getD []
      if column_ref ∈ available.map pyLower then issues
      else issues ++
        ["Column \x27" ++ column_ref ++ "\x27 not found in table \x27" ++ mt ++
         "\x27. Available: " ++ joinSep ", " available]) []

/-- Pattern-2 issue collection for one candidate column word
(lines 263-286). -/
def standaloneColIssue (table_columns : Dict (List String))
    (all_columns : List String) (col : String) : List String :=
  let col_lower := pyLower col
  if col_lower ∉ sqlSkipWords ∧
     col_lower ∉ (table_columns.map Prod.fst).map pyLower ∧
     col.length > 2 then
    if col_lower ∉ all_columns then
      match dictGet commonMistakes col_lower with
      | some hint => ["Column \x27" ++ col ++ "\x27 not found. " ++ hint]
      | none =>
        if pyHasChar col '_' || pyEndsWith col "id" || pyEndsWith col "name" ||
           pyEndsWith col "date" then
          ["Column \x27" ++ col ++ "\x27 not found in any available table"]
        else []
    else []
  else []

def validateSqlColumns (sql_query : String)
    (search_results : List SearchResult) : Bool × String :=
  let table_columns := extractTableColumns search_results
  let all_columns := search_results.foldl (fun l r =>
    match r.2.2 with
    | .tbl (some m) =>
      l ++ ((m.schema.columns.getD []).map (fun c => pyLower c.name))
    | _ => l) []
  let sql_lower := pyLower sql_query
  let issues1 := dotPairIssues table_columns sql_lower
  -- Pattern 2 (lines 252-286): enumerate parts, acting on parts that
  -- directly follow one of the five keyword separators.
  let sql_parts := splitKws splitKwList sql_query
  let pairs := sql_parts.tail.zip sql_parts
  let issues2 := pairs.foldl (fun issues pr =>
    let part := pr.1
    let prev := pr.2
    if pyUpper prev ∈ ["SELECT", "WHERE", "ON", "ORDER BY", "GROUP BY"] then
      let cleaned_part := subKws subKwList part
      let potential_columns := wordTokens cleaned_part
      issues ++ (potential_columns.map
        (standaloneColIssue table_columns all_columns)).flatten
    else issues) []
  let validation_issues := issues1 ++ issues2
  if validation_issues ≠ [] then
    (false, joinSep "; " (validation_issues.take 3))
  else (true, "Valid")

/-! ## `_clean_sql_output` (text_to_sql.py lines 429-566) -/

def explanationIndicators : List String :=
  ["this query", "the above", "explanation:", "note:", "this will",
   "this returns", "the result", "this sql", "let me break", "here\x27s what"]

def sqlStartKws : List String := ["SELECT", "WITH", "INSERT", "UPDATE", "DELETE"]

def sqlContKws : List String :=
  ["FROM", "WHERE", "JOIN", "INNER JOIN", "LEFT JOIN", "RIGHT JOIN",
   "ORDER BY", "GROUP BY", "HAVING", "UNION", "EXCEPT", "INTERSECT"]

def sqlMidKws : List String :=
  ["AND", "OR", "ON", "AS", "TOP", "DISTINCT", "COUNT", "SUM", "AVG",
   "MAX", "MIN"]

def prefixesToRemove : List String :=
  ["Here\x27s the SQL query:", "Here is the SQL query:", "The SQL query is:",
   "SQL Query:", "Query:", "SQL:", "T-SQL:",
   "Generate the SQL query using the exact table and column names from the metadata above:"]

/-- The line-by-line extraction loop with `break` (lines 492-543). -/
def extractSqlLines : List String → Bool → List String → List String
  | [], _, sql_lines => sql_lines
  | l :: rest, found, sql_lines =>
    let line := pyTrim l
    if line = "" then extractSqlLines rest found sql_lines
    else if pyStartsWith line "--" then extractSqlLines rest found sql_lines
    else if strContainsSub (pyLower line) "<think>" ||
            strContainsSub (pyLower line) "</think>" ||
            pyStartsWith (pyLower line) "okay," ||
            pyStartsWith (pyLower line) "first," ||
            pyStartsWith (pyLower line) "let me" ||
            pyStartsWith (pyLower line) "i need to" then
      extractSqlLines rest found sql_lines
    else if explanationIndicators.any (fun ind => strContainsSub (pyLower line) ind) then
      sql_lines
    else if sqlStartKws.any (fun k => pyStartsWith (pyUpper line) k) then
      extractSqlLines rest true (sql_lines ++ [line])
    else if found &&
        (sqlContKws.any (fun k => pyStartsWith (pyUpper line) k) ||
         [";", ",", ")", "("].any (fun c => pyEndsWith line c) ||
         strContainsSub (pyUpper line) "FROM" ||
         strContainsSub (pyUpper line) "WHERE" ||
         sqlMidKws.any (fun k => strContainsSub (pyUpper line) k)) then
      extractSqlLines rest found (sql_lines ++ [line])
    else if found && sql_lines ≠ [] then
      extractSqlLines rest found (sql_lines ++ [line])
    else
      extractSqlLines rest found sql_lines

/-- The last-resort cut loop (lines 553-558): cut at the first indicator
(in list order) that occurs, then stop. -/
def cutAtFirst (s : String) : List String → String
  | [] => s
  | ind :: rest =>
    let pos := pyFind (pyLower s) ind
    if pos ≠ -1 then pyTrim (pyTake s pos.toNat) else cutAtFirst s rest

def cleanSqlOutput (raw : String) : String :=
  let sql_output := pyTrim raw
  -- thinking tags (lines 435-452)
  let sql_output :=
    if strContainsSub (pyLower sql_output) "<think>" then
      let think_end := pyFind (pyLower sql_output) "</think>"
      if think_end ≠ -1 then pyTrim (pyDrop sql_output (think_end.toNat + 8))
      else
        let think_start := pyFind (pyLower sql_output) "<think>"
        if think_start ≠ -1 then
          let before_think := pyTrim (pyTake sql_output think_start.toNat)
          let after_think := pyTrim (pyDrop sql_output think_start.toNat)
          let select_pos := pyFind (pyUpper after_think) "SELECT"
          if select_pos ≠ -1 then pyTrim (pyDrop after_think select_pos.toNat)
          else before_think
        else sql_output
    else sql_output
  -- markdown fences (lines 455-460)
  let sql_output :=
    if pyStartsWith sql_output "```sql" then pyDrop sql_output 6 else sql_output
  let sql_output :=
    if pyStartsWith sql_output "```" then pyDrop sql_output 3 else sql_output
  let sql_output :=
    if pyEndsWith sql_output "```" then pyDropRight sql_output 3 else sql_output
  -- fence-line removal (lines 463-473)
  let cleaned_lines := ((pySplit sql_output "\n").map pyTrim).filter
    (fun l => ¬ (pyStartsWith l "```" || pyEndsWith l "```") && l ≠ "")
  let sql_output := joinSep "\n" cleaned_lines
  -- prefix removal (lines 476-489)
  let sql_output := prefixesToRemove.foldl (fun s p =>
    if pyStartsWith (pyLower s) (pyLower p) then pyTrim (pyDrop s p.length) else s)
    sql_output
  -- line-by-line extraction (lines 492-558)
  let sql_lines := extractSqlLines (pySplit sql_output "\n") false []
  let sql_output :=
    if sql_lines ≠ [] then joinSep "\n" sql_lines
    else
      let select_pos := pyFind (pyUpper sql_output) "SELECT"
      if select_pos ≠ -1 then
        cutAtFirst (pyDrop sql_output select_pos.toNat)
          ["this query", "explanation:", "note:", "here\x27s what"]
      else sql_output
  let sql_output := pyTrim sql_output
  -- trailing semicolon (lines 563-564)
  if pyEndsWith sql_output ";" then pyTrim (pyDropRight sql_output 1) else sql_output

/-! ## `_build_table_context_from_metadata` (text_to_sql.py lines 73-166) -/

/-- Per-column context line plus category membership (lines 92-120):
`(rendered line, is date column, is id column, is name column)`. -/
def contextColumn (col : ColumnInfo) : String × Bool × Bool × Bool :=
  let col_name := col.name
  let col_type := pyUpper col.type
  let col_info := "  - " ++ col_name ++ " (" ++ col.type
  let col_info := if ¬ col.nullable then col_info ++ ", NOT NULL" else col_info
  let col_info :=
    if col.autoincrement then col_info ++ ", AUTO_INCREMENT" else col_info
  let col_info := col_info ++ ")"
  let lower := pyLower col_name
  let isDate := strContainsSub col_type "DATE" || strContainsSub col_type "TIME" ||
    pyEndsWith lower "_at" || pyEndsWith lower "_date" || strContainsSub lower "date"
  let isId := pyEndsWith lower "_id" || pyEndsWith lower "id" || strContainsSub lower "id"
  let isName :=
    pyEndsWith lower "_name" || pyEndsWith lower "name" || strContainsSub lower "name"
  (col_info, isDate, isId, isName)

def contextRel : RelEntry → String
  | .dict t rt => t ++ " via " ++ rt
  | .str s => s

/-- Context block for one search result (lines 77-164). -/
def contextForResult (r : SearchResult) : List String :=
  let table_name := r.1
  let parts := ["=== TABLE: " ++ table_name ++ " ==="]
  match r.2.2 with
  | .tbl (some m) =>
    let schema := m.schema
    let analysis := m.llm_analysis
    let parts := parts ++
      ["PURPOSE: " ++ analysis.purpose.getD "General data storage"]
    let parts := parts ++ ["EXACT COLUMNS (USE THESE NAMES ONLY):"]
    let cols := schema.columns.getD []
    let rendered := cols.map contextColumn
    let parts := parts ++ rendered.map Prod.fst
    let available_columns := cols.map (fun c => c.name)
    let date_columns := (cols.filter (fun c => (contextColumn c).2.1)).map (fun c => c.name)
    let id_columns := (cols.filter (fun c => (contextColumn c).2.2.1)).map (fun c => c.name)
    let name_columns := (cols.filter (fun c => (contextColumn c).2.2.2)).map (fun c => c.name)
    let parts := parts ++
      ["ALL COLUMN NAMES: " ++ joinSep ", " available_columns]
    let parts := parts ++ (if date_columns ≠ [] then
      ["DATE COLUMNS (use for time queries): " ++ joinSep ", " date_columns] else [])
    let parts := parts ++ (if id_columns ≠ [] then
      ["ID COLUMNS (use for joins): " ++ joinSep ", " id_columns] else [])
    let parts := parts ++ (if name_columns ≠ [] then
      ["NAME COLUMNS (use for display): " ++ joinSep ", " name_columns] else [])
    let parts := parts ++ (if schema.primary_keys ≠ [] then
      ["PRIMARY KEY: " ++ joinSep ", " schema.primary_keys] else [])
    let parts := parts ++ (if schema.foreign_keys ≠ [] then
      ["FOREIGN KEYS:"] ++ schema.foreign_keys.map (fun fk =>
        match fk with
        | .dict c t rc => "  - " ++ c ++ " -> " ++ t ++ "." ++ rc
        | .str s => "  - " ++ s) else [])
    let parts := parts ++ (if schema.sample_data.length > 0 then
      ["SAMPLE DATA (shows actual column names and values):"] ++
        ((schema.sample_data.headD []).take 5).filterMap (fun kv =>
          match kv.2 with
          | some v => some ("  " ++ kv.1 ++ ": " ++ v)
          | none => none) else [])
    let parts := parts ++ (if analysis.data_patterns ≠ [] then
      ["DATA PATTERNS: " ++ joinSep "; " (analysis.data_patterns.take 2)] else [])
    let parts := parts ++ (if analysis.relationships ≠ [] then
      (let rel_info := (analysis.relationships.take 2).map contextRel
       if rel_info ≠ [] then ["RELATIONSHIPS: " ++ joinSep "; " rel_info]
       else []) else [])
    parts ++ [""]
  | _ => parts ++ [""]

def buildTableContextFromMetadata (search_results : List SearchResult) : String :=
  joinSep "\n" (search_results.map contextForResult).flatten

/-! ## Prompt construction (text_to_sql.py lines 53-71 and 168-206)

`datetime.now()` / `date.today()` are ambient inputs, collected in
`DateCtx`.  The prompts are built faithfully but no claim inspects their
text: the Generative Text Provider is an opaque function of the prompt. -/

structure DateCtx where
  today : String
  year : Nat
  month : Nat
  day : Nat
  week_start : String
  month_start : String
  year_start : String
  deriving DecidableEq, Repr

/-- `_get_current_date_context` (lines 53-71). -/
def getCurrentDateContext (dc : DateCtx) : String :=
  "\nCURRENT DATE CONTEXT (Use these exact values in SQL):\n" ++
  "- Today: \x27" ++ dc.today ++ "\x27\n" ++
  "- Current Year: " ++ toString dc.year ++ "\n" ++
  "- Current Month: " ++ toString dc.month ++ "\n" ++
  "- Current Day: " ++ toString dc.day ++ "\n" ++
  "- Week Start: \x27" ++ dc.week_start ++ "\x27\n" ++
  "- Month Start: \x27" ++ dc.month_start ++ "\x27\n" ++
  "- Year Start: \x27" ++ dc.year_start ++ "\x27\n"

/-- `_create_enhanced_sql_prompt` (lines 168-206), abridged only in the
fixed instruction prose (marked below); all dynamic parts are faithful. -/
def createEnhancedSqlPrompt (dc : DateCtx) (table_context user_query : String) :
    String :=
  "You are an expert SQL query generator for Microsoft SQL Server. \n\n" ++
  "ABSOLUTE REQUIREMENTS:\n" ++
  "1. Return ONLY the SQL query - NO thinking, explanations, comments, or extra text\n" ++
  "2. Do NOT use <think> tags or any explanatory text\n" ++
  "3. Start your response directly with SELECT (or other SQL command)\n" ++
  "4. Use ONLY the EXACT column names listed in the metadata below\n" ++
  "5. DO NOT use placeholder names like \x27date_column\x27, \x27id_column\x27, etc.\n" ++
  "6. DO NOT guess or assume column names - only use what\x27s explicitly shown\n" ++
  "7. Query must be 100% syntactically correct and executable\n\n" ++
  "T-SQL DATE FUNCTIONS (use with ACTUAL column names):\n" ++
  "- Current month: WHERE MONTH(actual_date_column) = " ++ toString dc.month ++
  " AND YEAR(actual_date_column) = " ++ toString dc.year ++ "\n" ++
  "- Today: WHERE CAST(actual_date_column AS DATE) = \x27" ++ dc.today ++ "\x27\n" ++
  "- This year: WHERE YEAR(actual_date_column) = " ++ toString dc.year ++ "\n\n" ++
  getCurrentDateContext dc ++
  "\nAVAILABLE TABLES WITH EXACT COLUMN NAMES:\n" ++ table_context ++
  "\n\nUSER QUERY: " ++ user_query ++
  "\n\nCRITICAL: Replace \x27actual_date_column\x27 with the real date column name from the tables above. Use ONLY the exact column names shown:"

/-! ## `process_query` (lines 293-391) and `_process_query_fallback`
(lines 393-427) -/

/-- `QueryResponse` (app/schemas/query.py); `execution_time` is wall-clock
time and is not modelled. -/
structure QueryResponse where
  success : Bool
  command : Option String := none
  sql_query : Option String := none
  result : Option String := none
  error : Option String := none
  deriving DecidableEq, Repr

/-- `_process_query_fallback`.  `fallbackTables` models
`self.sql_db.get_usable_table_names()` (`.error msg` = that call raised).
The provider maps the prompt to the response content; the second component
counts provider invocations. -/
def processQueryFallback (dc : DateCtx)
    (fallbackTables : Except String (List String))
    (provider : String → String) (command : String) (include_sql : Bool) :
    QueryResponse × Nat :=
  match fallbackTables with
  | .error e =>
    ({ success := false, command := some command,
       error := some ("Fallback query generation failed: " ++ e) }, 0)
  | .ok names =>
    let basic_context :=
      "Available tables: " ++ joinSep ", " (names.take 10)
    let prompt_text := createEnhancedSqlPrompt dc basic_context command
    let sql_query := cleanSqlOutput (provider prompt_text)
    ({ success := true, command := some command,
       sql_query := if include_sql then some sql_query else none,
       result := some sql_query }, 1)

/-- `process_query`.  `hasStore = false` models
`self.enhanced_schema_store is None` (construction failure).  Returns the
possibly-mutated store, the response, and the number of Generative Text
Provider calls made. -/
def processQuery (encode : String → List ℚ) (db : LiveDb) (dc : DateCtx)
    (fallbackTables : Except String (List String))
    (provider : String → String) (hasStore : Bool) (st : StoreState)
    (command : String) (include_sql : Bool) :
    StoreState × QueryResponse × Nat :=
  if ¬ hasStore || ¬ st.is_metadata_loaded then
    -- lines 299-301: fall back to basic schema generation
    let r := processQueryFallback dc fallbackTables provider command include_sql
    (st, r.1, r.2)
  else
    match searchStore encode db st command 8 with
    | (st, .error _) =>
      -- an IndexError inside search propagates to the outer handler
      (st, { success := false, command := some command,
             error := some "list index out of range" }, 0)
    | (st, .ok search_results) =>
      if search_results.isEmpty then
        (st, { success := false, command := some command,
               error := some "No relevant tables found for this query" }, 0)
      else
        let table_context := buildTableContextFromMetadata search_results
        let prompt_text := createEnhancedSqlPrompt dc table_context command
        let sql_query := cleanSqlOutput (provider prompt_text)
        if pyTrim sql_query = "" then
          (st, { success := false, command := some command,
                 error := some "Generated SQL query is empty" }, 1)
        else
          let v := validateSqlColumns sql_query search_results
          if ¬ v.1 then
            (st, { success := false, command := some command,
                   sql_query := if include_sql then some sql_query else none,
                   error := some ("Generated SQL contains invalid column names: " ++ v.2) }, 1)
          else
            (st, { success := true, command := some command,
                   sql_query := if include_sql then some sql_query else none,
                   result := some sql_query }, 1)

/-! # Concrete fixtures used by counterexamples and witnesses -/

/-- A one-dimensional constant embedding model. -/
def encOne : String → List ℚ := fun _ => [0]

def dcFix : DateCtx :=
  ⟨"2026-10-12", 2026, 10, 12, "2026-10-06", "2026-10-01", "2026-01-01"⟩

def empSchema : SchemaJson :=
  { table_name := some "employees",
    columns := some [{ name := "emp_id", type := "INT" },
                     { name := "emp_name", type := "VARCHAR" }] }

def mjEmp : MetadataJson := { tables := some [{ schema := some empSchema }] }

/-- Store state after ingesting the single-table `mjEmp` document. -/
def stEmp : StoreState := (processMetadata encOne "T0" true {} {} mjEmp).1

/-- A valid table entry with only a table name. -/
def tdNamed (n : String) : TableData := { schema := some { table_name := some n } }

/-- A malformed table entry: its schema has no `table_name` key. -/
def tdBad : TableData := { schema := some { table_name := none } }

/-! # Claims -/

/-- C9: `clear_all` is idempotent and safe on an empty store: after one
call the status reports `metadata_loaded = false`, `total_tables = 0`,
`index_built = false`, and a second immediate call leaves the status
identical to the single call. -/
theorem C9_clear_idempotent (st : StoreState) (disk : Disk) :
    getStatus (clearAll (clearAll st disk).1 (clearAll st disk).2).1
        (clearAll (clearAll st disk).1 (clearAll st disk).2).2 =
      getStatus (clearAll st disk).1 (clearAll st disk).2 ∧
    (getStatus (clearAll st disk).1 (clearAll st disk).2).metadata_loaded = false ∧
    (getStatus (clearAll st disk).1 (clearAll st disk).2).total_tables = 0 ∧
    (getStatus (clearAll st disk).1 (clearAll st disk).2).index_built = false :=
  ⟨rfl, rfl, rfl, rfl⟩

/-- C8: the code contradicts the claim — when persisting to disk fails at
the end of `process_metadata`, `_save_to_disk` swallows the exception
(lines 97-98), and the ingest still returns `success = true` with a
message claiming the data was "saved to disk", while nothing was written
(the disk is unchanged). -/
theorem C8_save_failure_not_surfaced :
    (processMetadata encOne "T0" false {} {} mjEmp).2.2.success = true ∧
    (processMetadata encOne "T0" false {} {} mjEmp).2.2.message =
      "Metadata processed successfully. 1 tables indexed and saved to disk." ∧
    (processMetadata encOne "T0" false {} {} mjEmp).2.1 = ({} : Disk) :=
  ⟨rfl, rfl, rfl⟩

/-- C6 counterexample: a paragraph of 1104 characters (forcing the
sentence re-split path) whose trailing sentence is short makes the chunker
emit the chunk `"Hi."` of length 3 < 50. -/
def cxChunkInput : String := String.mk (List.replicate 1100 'a') ++ ". Hi"

theorem C6_counterexample :
    "Hi." ∈ splitBusinessLogicContent cxChunkInput ∧ "Hi.".length < 50 := by
  constructor
  · decide
  · decide

theorem chunkParaStep_min (chunks : List String) (p : String)
    (hp : p.length ≤ 1000) (hacc : ∀ c ∈ chunks, 50 ≤ c.length) :
    ∀ c ∈ chunkParaStep chunks p, 50 ≤ c.length := by
  intro c hc
  by_cases h1 : p.length < 50
  · simp only [chunkParaStep, if_pos h1] at hc
    exact hacc c hc
  · have h2 : ¬ p.length > 1000 := by omega
    simp only [chunkParaStep, if_neg h1, if_neg h2, List.mem_append,
      List.mem_singleton] at hc
    rcases hc with hc | hc
    · exact hacc c hc
    · subst hc; omega

theorem chunkLoop_min (ps : List String) (acc : List String)
    (hps : ∀ p ∈ ps, p.length ≤ 1000) (hacc : ∀ c ∈ acc, 50 ≤ c.length) :
    ∀ c ∈ ps.foldl chunkParaStep acc, 50 ≤ c.length := by
  induction ps generalizing acc with
  | nil => simpa using hacc
  | cons p ps ih =>
    exact ih _ (fun q hq => hps q (List.mem_cons_of_mem _ hq))
      (chunkParaStep_min acc p (hps p (List.mem_cons_self _ _)) hacc)

theorem windowLoop_min (words : List String) (idxs : List Nat)
    (acc : List String) (hacc : ∀ c ∈ acc, 50 ≤ c.length) :
    ∀ c ∈ idxs.foldl (windowStep words) acc, 50 ≤ c.length := by
  induction idxs generalizing acc with
  | nil => simpa using hacc
  | cons i idxs ih =>
    refine ih _ (fun c hc => ?_)
    simp only [windowStep] at hc
    split at hc
    · rcases List.mem_append.1 hc with h | h
      · exact hacc c h
      · rcases List.mem_singleton.1 h with rfl; omega
    · exact hacc c hc

/-- C6 amended: paragraphs shorter than 50 characters are discarded and
word-window fallback chunks are longer than 50 characters, so when no
paragraph exceeds 1000 characters every emitted chunk has length ≥ 50;
the sentence re-split of longer paragraphs can emit shorter chunks
(see the counterexample). -/
theorem C6_amended (content : String)
    (h : ∀ p ∈ paragraphsOf content, p.length ≤ 1000) :
    ∀ c ∈ splitBusinessLogicContent content, 50 ≤ c.length := by
  intro c hc
  simp only [splitBusinessLogicContent] at hc
  split at hc
  · exact windowLoop_min _ _ _ (by simp) c hc
  · exact chunkLoop_min _ _ h (by simp) c hc

def wChunkInput : String := String.mk (List.replicate 60 'a')

theorem C6_amended_witness :
    (∀ p ∈ paragraphsOf wChunkInput, p.length ≤ 1000) ∧
    ∀ c ∈ splitBusinessLogicContent wChunkInput, 50 ≤ c.length :=
  ⟨by decide, C6_amended wChunkInput (by decide)⟩

/-- C7 counterexample: only the table-registry document is present on
disk (flag set), the combined-arrays blob and the index are missing — the
load keeps the flag and the empty structures instead of resetting, so the
store ends up loaded-but-indexless, not in the empty state. -/
def diskPartial : Disk := { metadata_file := .ok { is_metadata_loaded := true } }

theorem C7_counterexample :
    (loadFromDisk diskPartial).is_metadata_loaded = true ∧
    (loadFromDisk diskPartial).index = none ∧
    loadFromDisk diskPartial ≠ resetState := by
  refine ⟨rfl, rfl, ?_⟩
  decide

/-- C7 amended: the store resets to the empty state only when reading some
persisted artifact raises (unreadable file); artifacts that are merely
missing are skipped, which can leave loaded flags set without documents or
index. -/
theorem C7_amended (disk : Disk)
    (h : disk.metadata_file = .unreadable ∨ disk.business_file = .unreadable ∨
         disk.combined_file = .unreadable ∨ disk.index_file = .unreadable) :
    loadFromDisk disk = resetState := by
  unfold loadFromDisk loadAux
  rcases h with h | h | h | h <;>
    rcases hm : disk.metadata_file with _ | _ | m <;>
    rcases hb : disk.business_file with _ | _ | b <;>
    rcases hc : disk.combined_file with _ | _ | c <;>
    rcases hi : disk.index_file with _ | _ | i <;>
      simp_all

theorem C7_amended_witness :
    ({ combined_file := .unreadable : Disk }.combined_file =
      FileState.unreadable) ∧
    loadFromDisk { combined_file := .unreadable } = resetState :=
  ⟨rfl, C7_amended _ (Or.inr (Or.inr (Or.inl rfl)))⟩

/-! ### Characterization of the `process_metadata` table loop -/

theorem metadataLoop_spec (tds : List TableData) (acc : MetaLoopAcc) :
    tds.foldl metadataLoopStep acc =
      { processed_tables :=
          acc.processed_tables + (tds.filterMap processTableItem).length,
        enriched_texts := acc.enriched_texts ++
          (tds.filterMap processTableItem).map (fun e => e.2.1),
        names := acc.names ++ (tds.filterMap processTableItem).map (fun e => e.1),
        table_metadata := (tds.filterMap processTableItem).foldl
          (fun d e => dictInsert d e.1 e.2.2) acc.table_metadata } := by
  induction tds generalizing acc with
  | nil => simp
  | cons td tds ih =>
    rcases h : processTableItem td with _ | ⟨name, text, meta⟩ <;>
      simp [metadataLoopStep, h, ih, Nat.add_assoc, Nat.add_comm 1]

/-- `_rebuild_combined_index` touches only the three combined arrays and
the index. -/
@[simp] theorem rebuild_table_names (encode : String → List ℚ) (st : StoreState) :
    (rebuildCombinedIndex encode st).table_names = st.table_names := by
  simp only [rebuildCombinedIndex]
  split <;> rfl

@[simp] theorem rebuild_table_metadata (encode : String → List ℚ) (st : StoreState) :
    (rebuildCombinedIndex encode st).table_metadata = st.table_metadata := by
  simp only [rebuildCombinedIndex]
  split <;> rfl

@[simp] theorem rebuild_schema_texts (encode : String → List ℚ) (st : StoreState) :
    (rebuildCombinedIndex encode st).schema_texts = st.schema_texts := by
  simp only [rebuildCombinedIndex]
  split <;> rfl

@[simp] theorem rebuild_biz (encode : String → List ℚ) (st : StoreState) :
    (rebuildCombinedIndex encode st).business_logic_texts = st.business_logic_texts := by
  simp only [rebuildCombinedIndex]
  split <;> rfl

/-- C5: `process_metadata` skips malformed table entries and succeeds iff
at least one table survives; on success `processed_tables` counts the
survivors, `total_tables` counts the raw input array, and the status
afterwards counts only the survivors. -/
theorem C5_partial_ingest (encode : String → List ℚ) (now : String)
    (saveOk : Bool) (st : StoreState) (disk : Disk) (tds : List TableData) :
    ((processMetadata encode now saveOk st disk ⟨true, some tds⟩).2.2.success = true ↔
      tds.filterMap processTableItem ≠ []) ∧
    ((processMetadata encode now saveOk st disk ⟨true, some tds⟩).2.2.success = true →
      (processMetadata encode now saveOk st disk ⟨true, some tds⟩).2.2.processed_tables =
        some (tds.filterMap processTableItem).length ∧
      (processMetadata encode now saveOk st disk ⟨true, some tds⟩).2.2.total_tables =
        some tds.length ∧
      (getStatus (processMetadata encode now saveOk st disk ⟨true, some tds⟩).1
          (processMetadata encode now saveOk st disk ⟨true, some tds⟩).2.1).total_tables =
        (tds.filterMap processTableItem).length) := by
  unfold processMetadata
  simp only [metadataLoop_spec]
  by_cases hs : tds.filterMap processTableItem = []
  · simp [hs]
  · simp [hs, getStatus]

def cxTables : List TableData := [tdNamed "a", tdNamed "b", tdBad, tdNamed "c"]

theorem C5_partial_ingest_witness :
    (processMetadata encOne "T0" true {} {} ⟨true, some cxTables⟩).2.2.success = true ∧
    (processMetadata encOne "T0" true {} {} ⟨true, some cxTables⟩).2.2.processed_tables =
      some 3 ∧
    (processMetadata encOne "T0" true {} {} ⟨true, some cxTables⟩).2.2.total_tables =
      some 4 ∧
    (getStatus (processMetadata encOne "T0" true {} {} ⟨true, some cxTables⟩).1
        (processMetadata encOne "T0" true {} {} ⟨true, some cxTables⟩).2.1).total_tables =
      3 := by
  have h := (C5_partial_ingest encOne "T0" true {} {} cxTables).2 (by decide)
  have e3 : (cxTables.filterMap processTableItem).length = 3 := by decide
  have e4 : cxTables.length = 4 := by decide
  rw [e3, e4] at h
  exact ⟨by decide, h.1, h.2.1, h.2.2⟩

/-! ### Dict lemmas for the registry-merge claim -/

theorem find_map_keyUpdate {α : Type} (d : Dict α) (k k' : String) (v : α)
    (h : k ≠ k') :
    (d.map (fun p => if p.1 = k' then (k', v) else p)).find? (fun p => p.1 = k) =
      d.find? (fun p => p.1 = k) := by
  induction d with
  | nil => rfl
  | cons p d ih =>
    by_cases hp : p.1 = k'
    · have hk : p.1 ≠ k := by rw [hp]; exact fun hh => h hh.symm
      simp [hp, List.find?, Ne.symm h, hk, ih]
    · by_cases hk : p.1 = k <;> simp [hp, List.find?, hk, ih, h]

theorem find_append_single_ne {α : Type} (d : Dict α) (k k' : String) (v : α)
    (h : k ≠ k') :
    (d ++ [(k', v)]).find? (fun p => p.1 = k) = d.find? (fun p => p.1 = k) := by
  induction d with
  | nil => simp [List.find?, Ne.symm h]
  | cons p d ih =>
    by_cases hk : p.1 = k <;> simp [List.find?, hk, ih]

theorem dictGet_insert_ne {α : Type} (d : Dict α) (k k' : String) (v : α)
    (h : k ≠ k') : dictGet (dictInsert d k' v) k = dictGet d k := by
  unfold dictInsert dictGet
  split
  · rw [find_map_keyUpdate d k k' v h]
  · rw [find_append_single_ne d k k' v h]

theorem dictGet_foldlInsert_not_mem (entries : List (String × String × TableMeta))
    (d : Dict TableMeta) (k : String)
    (h : k ∉ entries.map (fun e => e.1)) :
    dictGet (entries.foldl (fun d e => dictInsert d e.1 e.2.2) d) k =
      dictGet d k := by
  induction entries generalizing d with
  | nil => rfl
  | cons e es ih =>
    simp only [List.map_cons, List.mem_cons, not_or] at h
    rw [List.foldl_cons, ih _ h.2, dictGet_insert_ne _ _ _ _ h.1]

/-- C10: a successful `process_metadata` ingest merges the table registry
(entries for tables absent from the new document keep their old
`get_table_details` value) while `table_names` is wholly replaced by the
new document's surviving tables, so the status counts only those. -/
theorem C10_registry_merged (encode : String → List ℚ) (now : String)
    (saveOk : Bool) (st : StoreState) (disk : Disk) (tds : List TableData)
    (name : String)
    (hsucc : (processMetadata encode now saveOk st disk ⟨true, some tds⟩).2.2.success = true)
    (hname : name ∉ (tds.filterMap processTableItem).map (fun e => e.1)) :
    getTableDetails (processMetadata encode now saveOk st disk ⟨true, some tds⟩).1 name =
      getTableDetails st name ∧
    (processMetadata encode now saveOk st disk ⟨true, some tds⟩).1.table_names =
      (tds.filterMap processTableItem).map (fun e => e.1) ∧
    (getStatus (processMetadata encode now saveOk st disk ⟨true, some tds⟩).1
        (processMetadata encode now saveOk st disk ⟨true, some tds⟩).2.1).total_tables =
      (tds.filterMap processTableItem).length := by
  have hs : tds.filterMap processTableItem ≠ [] :=
    (C5_partial_ingest encode now saveOk st disk tds).1.mp hsucc
  unfold processMetadata getTableDetails
  simp only [metadataLoop_spec]
  simp [hs, getStatus, dictGet_foldlInsert_not_mem _ _ _ hname]

theorem C10_registry_merged_witness :
    ((processMetadata encOne "T1" true stEmp {}
        ⟨true, some [tdNamed "newtbl"]⟩).2.2.success = true) ∧
    ("employees" ∉ ([tdNamed "newtbl"].filterMap processTableItem).map
        (fun e => e.1)) ∧
    (getTableDetails stEmp "employees").isSome = true ∧
    getTableDetails (processMetadata encOne "T1" true stEmp {}
        ⟨true, some [tdNamed "newtbl"]⟩).1 "employees" =
      getTableDetails stEmp "employees" ∧
    (processMetadata encOne "T1" true stEmp {}
        ⟨true, some [tdNamed "newtbl"]⟩).1.table_names = ["newtbl"] := by
  have h := C10_registry_merged encOne "T1" true stEmp {} [tdNamed "newtbl"]
    "employees" (by decide) (by decide)
  refine ⟨by decide, by decide, by decide, h.1, ?_⟩
  rw [h.2.1]; decide

/-- C1 counterexample: with the store reporting nothing loaded, the
orchestrator does not terminate with a "knowledge base not loaded" error
and zero provider calls — it falls back to basic-schema generation, makes
one Generative Text Provider call, and returns `success = true`. -/
theorem C1_counterexample :
    (processQuery encOne [] dcFix (.ok ["t1"]) (fun _ => "SELECT 1") true {}
        "show data" true).2.1.success = true ∧
    (processQuery encOne [] dcFix (.ok ["t1"]) (fun _ => "SELECT 1") true {}
        "show data" true).2.2 = 1 ∧
    (processQuery encOne [] dcFix (.ok ["t1"]) (fun _ => "SELECT 1") true {}
        "show data" true).2.1.error = none := by
  refine ⟨?_, ?_, ?_⟩ <;> decide

/-- C1 amended: when the Knowledge Base Store reports nothing loaded,
`process_query` falls back to `_process_query_fallback`: it makes exactly
one Generative Text Provider call over the basic table listing and returns
`success = true` with the cleaned SQL (no "knowledge base not loaded"
error result). -/
theorem C1_amended (encode : String → List ℚ) (db : LiveDb) (dc : DateCtx)
    (names : List String) (provider : String → String) (st : StoreState)
    (command : String) (include_sql : Bool)
    (h : st.is_metadata_loaded = false) :
    processQuery encode db dc (.ok names) provider true st command include_sql =
      (st,
       { success := true, command := some command,
         sql_query :=
           if include_sql then
             some (cleanSqlOutput (provider (createEnhancedSqlPrompt dc
               ("Available tables: " ++ joinSep ", " (names.take 10)) command)))
           else none,
         result := some (cleanSqlOutput (provider (createEnhancedSqlPrompt dc
           ("Available tables: " ++ joinSep ", " (names.take 10)) command))) },
       1) := by
  simp [processQuery, h, processQueryFallback]

theorem C1_amended_witness :
    (({} : StoreState).is_metadata_loaded = false) ∧
    processQuery encOne [] dcFix (.ok ["t1"]) (fun _ => "SELECT 1") true {}
        "show data" true =
      ({}, { success := true, command := some "show data",
             sql_query := some "SELECT 1", result := some "SELECT 1" }, 1) := by
  have h := C1_amended encOne [] dcFix ["t1"] (fun _ => "SELECT 1") {}
    "show data" true rfl
  exact ⟨rfl, h.trans (by decide)⟩

/-- The search results the orchestrator retrieves for the C2 scenario. -/
def cxResults : List SearchResult :=
  match (searchStore encOne [] stEmp "cmd" 8).2 with
  | .ok l => l
  | .error _ => []

/-- C2 counterexample: the provider's generated SQL references a
non-existent column, so validation fails — the orchestrator returns
`success = false` after exactly one generation call (no repair re-prompt,
no 3 attempts), although a corrected statement over the same retrieved
tables would have validated (last conjunct). -/
theorem C2_counterexample :
    (processQuery encOne [] dcFix (.ok [])
        (fun _ => "SELECT employees.salary FROM employees") true stEmp "cmd"
        true).2.1.success = false ∧
    (processQuery encOne [] dcFix (.ok [])
        (fun _ => "SELECT employees.salary FROM employees") true stEmp "cmd"
        true).2.2 = 1 ∧
    (processQuery encOne [] dcFix (.ok [])
        (fun _ => "SELECT employees.salary FROM employees") true stEmp "cmd"
        true).2.1.error =
      some "Generated SQL contains invalid column names: Column \x27salary\x27 not found in table \x27employees\x27. Available: emp_id, emp_name" ∧
    validateSqlColumns (cleanSqlOutput "SELECT employees.emp_id FROM employees")
        cxResults = (true, "Valid") := by
  refine ⟨?_, ?_, ?_, ?_⟩ <;> decide

/-- C2 amended: the orchestrator makes at most ONE generation call per
query — there is no bounded 3-attempt repair loop; on validation failure
it returns `success = false` with the validation errors immediately. -/
theorem C2_amended (encode : String → List ℚ) (db : LiveDb) (dc : DateCtx)
    (fallbackTables : Except String (List String)) (provider : String → String)
    (hasStore : Bool) (st : StoreState) (command : String)
    (include_sql : Bool) :
    (processQuery encode db dc fallbackTables provider hasStore st command
        include_sql).2.2 ≤ 1 := by
  unfold processQuery
  split
  · rcases fallbackTables with e | names <;> simp [processQueryFallback]
  · rcases hsr : searchStore encode db st command 8 with ⟨st2, r⟩
    rcases r with e | rs
    · simp [hsr]
    · simp only [hsr]
      split
      · simp
      · split
        · simp
        · split <;> simp

/-! ### C3: alignment of the three parallel arrays with the index -/

/-- Row `i` of the vector index corresponds to document `i` (it is the
embedding of `combined_texts[i]`), and the type/identifier arrays are
index-aligned with the documents. -/
def indexAligned (encode : String → List ℚ) (st : StoreState) : Prop :=
  st.text_types.length = st.combined_texts.length ∧
  st.text_identifiers.length = st.combined_texts.length ∧
  st.index = some (st.combined_texts.map encode)

/-- The combined document list that `_rebuild_combined_index` builds from
a state (lines 264-277). -/
def combinedOf (st : StoreState) : List String :=
  (st.table_names.zip st.schema_texts).map Prod.snd ++
  (st.business_logic_texts.zip st.business_logic_metadata).map
    (fun p => "Business Logic: " ++ p.1)

theorem rebuild_combined_def (encode : String → List ℚ) (st : StoreState) :
    (rebuildCombinedIndex encode st).combined_texts = combinedOf st := by
  simp only [rebuildCombinedIndex, combinedOf]
  split <;> rfl

theorem rebuild_types_def (encode : String → List ℚ) (st : StoreState) :
    (rebuildCombinedIndex encode st).text_types =
      (st.table_names.zip st.schema_texts).map (fun _ => "schema") ++
      (st.business_logic_texts.zip st.business_logic_metadata).map
        (fun _ => "business_logic") := by
  simp only [rebuildCombinedIndex]
  split <;> rfl

theorem rebuild_ids_def (encode : String → List ℚ) (st : StoreState) :
    (rebuildCombinedIndex encode st).text_identifiers =
      (st.table_names.zip st.schema_texts).map Prod.fst ++
      (st.business_logic_texts.zip st.business_logic_metadata).map
        (fun p => p.2.chunk_id) := by
  simp only [rebuildCombinedIndex]
  split <;> rfl

theorem rebuild_index_of_ne (encode : String → List ℚ) (st : StoreState)
    (hne : combinedOf st ≠ []) :
    (rebuildCombinedIndex encode st).index = some ((combinedOf st).map encode) := by
  simp only [rebuildCombinedIndex, combinedOf] at hne ⊢
  split <;> rename_i hsplit
  · exact absurd (List.isEmpty_iff.mp hsplit) hne
  · rfl

/-- After `_rebuild_combined_index` the three arrays are equal-length, and
when they are non-empty the index is exactly their embeddings. -/
theorem rebuild_aligned (encode : String → List ℚ) (st : StoreState)
    (hne : combinedOf st ≠ []) :
    indexAligned encode (rebuildCombinedIndex encode st) := by
  refine ⟨?_, ?_, ?_⟩
  · rw [rebuild_types_def, rebuild_combined_def]
    simp [combinedOf]
  · rw [rebuild_ids_def, rebuild_combined_def]
    simp [combinedOf]
  · rw [rebuild_index_of_ne encode st hne, rebuild_combined_def]

/-- C3 amended: after every successful ingest that goes through
`_rebuild_combined_index` (`process_metadata`, `process_business_logic_file`)
the three parallel arrays are equal-length and row `i` of the index is the
embedding of document `i`; the fallback `build_from_database` instead
leaves the three combined arrays empty while populating the index from the
live schemas (see the counterexample). -/
theorem C3_alignment_after_ingest (encode : String → List ℚ) (now : String)
    (saveOk : Bool) (st : StoreState) (disk : Disk) (tds : List TableData)
    (content fname : String) :
    ((processMetadata encode now saveOk st disk ⟨true, some tds⟩).2.2.success = true →
      indexAligned encode (processMetadata encode now saveOk st disk ⟨true, some tds⟩).1) ∧
    ((processBusinessLogicFile encode now saveOk st disk content fname).2.2.success = true →
      indexAligned encode
        (processBusinessLogicFile encode now saveOk st disk content fname).1) := by
  constructor
  · intro hsucc
    have hs : tds.filterMap processTableItem ≠ [] :=
      (C5_partial_ingest encode now saveOk st disk tds).1.mp hsucc
    unfold processMetadata
    simp only [metadataLoop_spec]
    simp only [Option.getD_some, List.nil_append]
    rw [if_neg (by simp)]
    rw [if_neg (by simpa using hs)]
    apply rebuild_aligned
    have hlen : 0 < (tds.filterMap processTableItem).length :=
      List.length_pos.mpr hs
    apply List.ne_nil_of_length_pos
    simp [combinedOf, List.length_zip]
    omega
  · intro hsucc
    have hchunks : splitBusinessLogicContent content ≠ [] := by
      intro hempty
      unfold processBusinessLogicFile at hsucc
      rw [if_pos (by simp [hempty])] at hsucc
      simp at hsucc
    unfold processBusinessLogicFile
    rw [if_neg (by simpa using hchunks)]
    apply rebuild_aligned
    have hlen : 0 < (splitBusinessLogicContent content).length :=
      List.length_pos.mpr hchunks
    apply List.ne_nil_of_length_pos
    simp [combinedOf, List.length_zip]
    omega

theorem C3_alignment_witness :
    ((processMetadata encOne "T0" true {} {}
        ⟨true, some [{ schema := some empSchema }]⟩).2.2.success = true) ∧
    indexAligned encOne (processMetadata encOne "T0" true {} {}
        ⟨true, some [{ schema := some empSchema }]⟩).1 ∧
    ((processBusinessLogicFile encOne "T0" true {} {} wChunkInput
        "biz.txt").2.2.success = true) ∧
    indexAligned encOne (processBusinessLogicFile encOne "T0" true {} {}
        wChunkInput "biz.txt").1 := by
  have h := C3_alignment_after_ingest encOne "T0" true {} {}
    [{ schema := some empSchema }] wChunkInput "biz.txt"
  exact ⟨by decide, h.1 (by decide), by decide, h.2 (by decide)⟩

/-- C3 counterexample: the fallback build from the live database schema
does not regenerate the three parallel arrays — after it, the index has
one row while the document/type/identifier arrays are all empty, so the
claimed "number of documents equals the index's row count" fails on that
path. -/
theorem C3_counterexample :
    (buildFromDatabase encOne [("t1", some "info")] {}).combined_texts.length = 0 ∧
    (buildFromDatabase encOne [("t1", some "info")] {}).text_types.length = 0 ∧
    (buildFromDatabase encOne [("t1", some "info")] {}).text_identifiers.length = 0 ∧
    ((buildFromDatabase encOne [("t1", some "info")] {}).index.getD []).length = 1 := by
  refine ⟨?_, ?_, ?_, ?_⟩ <;> decide

/-! ### C4: search result bounds, ordering, and row validity -/

theorem idxLeB_iff (d : Nat → ℚ) (i j : Nat) :
    idxLeB d i j ↔ (d i < d j ∨ (d i = d j ∧ i ≤ j)) := by
  unfold idxLeB
  simp

theorem idxLeB_le {d : Nat → ℚ} {i j : Nat} (h : idxLeB d i j) : d i ≤ d j := by
  rcases (idxLeB_iff d i j).mp h with h | ⟨h, _⟩
  · exact le_of_lt h
  · exact le_of_eq h

theorem faissRank_mem (rows : List (List ℚ)) (q : List ℚ) :
    ∀ i ∈ faissRank rows q, i < rows.length := by
  intro i hi
  have h := (List.perm_insertionSort (idxLeB (rowDist rows q))
    (List.range rows.length)).mem_iff.mp hi
  simpa using h

theorem faissRank_sorted (rows : List (List ℚ)) (q : List ℚ) :
    (faissRank rows q).Pairwise
      (fun i j => rowDist rows q i ≤ rowDist rows q j) := by
  haveI htot : IsTotal Nat (idxLeB (rowDist rows q)) := ⟨fun a b => by
    rw [idxLeB_iff, idxLeB_iff]
    rcases lt_trichotomy (rowDist rows q a) (rowDist rows q b) with h | h | h
    · exact Or.inl (Or.inl h)
    · rcases Nat.le_total a b with hab | hab
      · exact Or.inl (Or.inr ⟨h, hab⟩)
      · exact Or.inr (Or.inr ⟨h.symm, hab⟩)
    · exact Or.inr (Or.inl h)⟩
  haveI htrans : IsTrans Nat (idxLeB (rowDist rows q)) := ⟨fun a b c hab hbc => by
    rw [idxLeB_iff] at hab hbc ⊢
    rcases hab with h1 | ⟨h1, h1'⟩ <;> rcases hbc with h2 | ⟨h2, h2'⟩
    · exact Or.inl (h1.trans h2)
    · exact Or.inl (h2 ▸ h1)
    · exact Or.inl (h1 ▸ h2)
    · exact Or.inr ⟨h1.trans h2, le_trans h1' h2'⟩⟩
  have hs := List.sorted_insertionSort (r := idxLeB (rowDist rows q))
    (List.range rows.length)
  exact List.Pairwise.imp (fun h => idxLeB_le h) hs

theorem faissSearchIdx_of_le (rows : List (List ℚ)) (q : List ℚ) (k : Nat)
    (h : k ≤ rows.length) :
    faissSearchIdx rows q k = ((faissRank rows q).take k).map Int.ofNat := by
  unfold faissSearchIdx
  rw [Nat.sub_eq_zero_of_le h]
  simp

theorem searchStep_ok (st : StoreState)
    (hne : st.combined_texts ≠ [])
    (hty : st.text_types.length = st.combined_texts.length)
    (hid : st.text_identifiers.length = st.combined_texts.length)
    (i : Nat) (hi : i < st.combined_texts.length) (acc : List SearchResult) :
    searchStep st (.ok acc) (Int.ofNat i) = .ok (acc ++ (resultAt st i).toList) := by
  have h0 : ¬ (Int.ofNat i < 0) := Int.not_lt.mpr (Int.ofNat_nonneg i)
  have hget : ∀ {α : Type} (l : List α), pyGetIdx l (Int.ofNat i) = l.get? i := by
    intro α l
    simp only [pyGetIdx, if_neg h0]
    simp
  have hcond : st.combined_texts.isEmpty = false := by
    simpa [List.isEmpty_iff] using hne
  rcases h1 : st.text_types.get? i with _ | t
  · exact absurd hi (by have := List.get?_eq_none.mp h1; omega)
  rcases h2 : st.text_identifiers.get? i with _ | idf
  · exact absurd hi (by have := List.get?_eq_none.mp h2; omega)
  rcases h3 : st.combined_texts.get? i with _ | ct
  · exact absurd hi (by have := List.get?_eq_none.mp h3; omega)
  simp only [searchStep, resultAt, hcond, hget, h1, h2, h3, Bool.false_eq_true,
    not_false_eq_true, if_true, ite_not]
  rw [if_pos (by simpa using hi)]
  split
  · rfl
  · split
    · split <;> rfl
    · simp

theorem searchLoop_collect (st : StoreState)
    (hne : st.combined_texts ≠ [])
    (hty : st.text_types.length = st.combined_texts.length)
    (hid : st.text_identifiers.length = st.combined_texts.length)
    (idxs : List Nat) :
    ∀ acc : List SearchResult,
      (∀ i ∈ idxs, i < st.combined_texts.length) →
      (idxs.map Int.ofNat).foldl (searchStep st) (.ok acc) =
        .ok (acc ++ idxs.filterMap (resultAt st)) := by
  induction idxs with
  | nil => intro acc _; simp
  | cons i idxs ih =>
    intro acc hidx
    rw [List.map_cons, List.foldl_cons,
      searchStep_ok st hne hty hid i (hidx i (List.mem_cons_self _ _)) acc,
      ih _ (fun j hj => hidx j (List.mem_cons_of_mem _ hj))]
    rcases h : resultAt st i with _ | r <;>
      simp [List.filterMap_cons, h]

/-- C4 amended: when `k` does not exceed the number of indexed documents
(so FAISS pads nothing) and the store arrays are index-aligned, `search`
returns exactly the results built from valid row indices, in
non-decreasing L2-distance order, and at most `k` of them.  When `k`
exceeds the document count, the `-1` padding rows slip through the bound
check and are re-read through Python negative indexing as the *last*
document (see the counterexample). -/
theorem C4_search_bounded_sorted (encode : String → List ℚ) (db : LiveDb)
    (st : StoreState) (q : String) (k : Nat) (rows : List (List ℚ))
    (hidx : st.index = some rows)
    (hrows : rows.length = st.combined_texts.length)
    (hty : st.text_types.length = st.combined_texts.length)
    (hid : st.text_identifiers.length = st.combined_texts.length)
    (hne : st.combined_texts ≠ [])
    (hk : k ≤ st.combined_texts.length) :
    ∃ idxs : List Nat,
      (∀ i ∈ idxs, i < st.combined_texts.length) ∧
      idxs.Pairwise
        (fun i j => rowDist rows (encode q) i ≤ rowDist rows (encode q) j) ∧
      (searchStore encode db st q k).2 = .ok (idxs.filterMap (resultAt st)) ∧
      (idxs.filterMap (resultAt st)).length ≤ k := by
  have hmem : ∀ i ∈ (faissRank rows (encode q)).take k,
      i < st.combined_texts.length := fun i hi =>
    hrows ▸ faissRank_mem rows (encode q) i (List.take_subset _ _ hi)
  refine ⟨(faissRank rows (encode q)).take k, hmem, ?_, ?_, ?_⟩
  · exact List.Pairwise.sublist (List.take_sublist _ _)
      (faissRank_sorted rows (encode q))
  · unfold searchStore
    rw [hidx]
    simp only [Option.isNone_some, Bool.false_eq_true, if_false]
    rw [hidx]
    show List.foldl (searchStep st) (Except.ok []) (faissSearchIdx rows (encode q) k) =
      Except.ok (List.filterMap (resultAt st) (List.take k (faissRank rows (encode q))))
    rw [faissSearchIdx_of_le rows (encode q) k (hrows ▸ hk)]
    simpa using searchLoop_collect st hne hty hid _ [] hmem
  · exact le_trans (List.length_filterMap_le _ _) (List.length_take_le _ _)

theorem C4_search_bounded_sorted_witness :
    (stEmp.index = some [[0]]) ∧
    (([[0]] : List (List ℚ)).length = stEmp.combined_texts.length) ∧
    (stEmp.text_types.length = stEmp.combined_texts.length) ∧
    (stEmp.text_identifiers.length = stEmp.combined_texts.length) ∧
    (stEmp.combined_texts ≠ []) ∧
    (1 ≤ stEmp.combined_texts.length) ∧
    ∃ idxs : List Nat,
      (∀ i ∈ idxs, i < stEmp.combined_texts.length) ∧
      idxs.Pairwise
        (fun i j => rowDist [[0]] (encOne "q") i ≤ rowDist [[0]] (encOne "q") j) ∧
      (searchStore encOne [] stEmp "q" 1).2 = .ok (idxs.filterMap (resultAt stEmp)) ∧
      (idxs.filterMap (resultAt stEmp)).length ≤ 1 :=
  ⟨by decide, by decide, by decide, by decide, by decide, by decide,
   C4_search_bounded_sorted encOne [] stEmp "q" 1 [[0]] (by decide) (by decide)
     (by decide) (by decide) (by decide) (by decide)⟩

def okLen {α : Type} : Except Unit (List α) → Nat
  | .ok l => l.length
  | .error _ => 0

def dupFirstTwo : Except Unit (List SearchResult) → Bool
  | .ok (a :: b :: _) => a = b
  | _ => false

/-- C4 counterexample: a store with exactly one indexed document queried
with `k = 2`: FAISS returns row 0 and a `-1` padding row; the padding row
passes the `idx < len` guard and Python's negative indexing turns it into
a second copy of the last (only) document — two results from a one-row
index, the second produced from a padding row. -/
theorem C4_counterexample :
    okLen (searchStore encOne [] stEmp "q" 2).2 = 2 ∧
    stEmp.combined_texts.length = 1 ∧
    dupFirstTwo (searchStore encOne [] stEmp "q" 2).2 = true := by
  refine ⟨?_, ?_, ?_⟩ <;> decide

end PromptToSql
